import Mathlib

/-!
Shallow embedding of the ArthurDex backend gateway (server.js): the token
transfer handler, the token create handler, the registration handler, the
transaction listing endpoints, and the price cache read/refresh paths, over
both storage backends (MongoDB when MONGO_URI is set, the in-process memory
store otherwise). Handlers are modelled as pure functions of the request,
the relevant store state, and the outcome of each external call (ledger
network, price oracle); each returns the HTTP reply together with the store
writes it performs.
-/

/-- An HTTP reply as produced by the Express handlers: a JSON success body,
or an error with HTTP status code, error string and optional details string
(the details field carries err.message where the source includes it). -/
inductive HttpReply (α : Type) where
  | ok (body : α)
  | err (status : Nat) (error : String) (details : Option String)
deriving Repr, DecidableEq

/-- HTTP status code of a reply; a JSON success body is sent with status 200. -/
def httpStatus {α : Type} : HttpReply α → Nat
  | .ok _ => 200
  | .err s _ _ => s

/-- JS truthiness of an optional string request field: an absent field and an
empty string are both falsy, matching checks such as if not tokenId. -/
def strPresent (o : Option String) : Bool := o.getD "" != ""

/-- Body of POST api token transfer: tokenId, fromAccountId, fromPrivateKey,
toAccountId, amount; every field may be absent in the raw JSON. -/
structure TransferRequest where
  tokenId : Option String
  fromAccountId : Option String
  fromPrivateKey : Option String
  toAccountId : Option String
  amount : Option Int
deriving Repr, DecidableEq

/-- One token-transfer leg as added by addTokenTransfer: token id, account id
and signed amount. -/
structure TokenTransferLeg where
  tokenId : String
  accountId : String
  amount : Int
deriving Repr, DecidableEq

/-- The legs of the TransferTransaction built by the transfer handler
(server.js lines 373-376): the from account is debited by amount and the to
account credited by amount. -/
def transferLegs (tokenId fromAcct toAcct : String) (amount : Int) :
    List TokenTransferLeg :=
  [⟨tokenId, fromAcct, -amount⟩, ⟨tokenId, toAcct, amount⟩]

/-- Outcome of the ledger network interaction freeze, sign, execute,
getReceipt in the transfer handler: both calls succeed yielding the receipt
status string and the transaction id; execute throws; or execute succeeds but
getReceipt throws (the ambiguous case, e.g. a timeout during the receipt
wait). The message is what err.message holds in the catch block. -/
inductive LedgerOutcome where
  | ok (receiptStatus : String) (txId : String)
  | executeThrew (msg : String)
  | receiptThrew (txId : String) (msg : String)
deriving Repr, DecidableEq

/-- A transaction document as built by the handlers before persistence,
mirroring the Mongoose transaction schema. createdAt is optional: the
generic POST api transactions handler stamps it explicitly, the transfer
handler leaves it unset (Mongo fills it from the schema default on create;
the memory store keeps the document as built). -/
structure TxDoc where
  accountId : String
  type : String
  tokenId : Option String
  amount : Option Int
  status : String
  transactionId : Option String
  createdAt : Option Nat
deriving Repr, DecidableEq

/-- Success body of the transfer endpoint: transactionId and receipt status. -/
structure TransferOkBody where
  transactionId : String
  status : String
deriving Repr, DecidableEq

/-- Result of one run of the transfer handler: the HTTP reply, the
transaction documents persisted during the run (via Transaction.create or
memoryStore.txs.unshift), whether any ledger network call was issued, and the
legs of the TransferTransaction the handler constructed (empty when the
handler returned before constructing it). -/
structure TransferRunResult where
  reply : HttpReply TransferOkBody
  persisted : List TxDoc
  ledgerCalled : Bool
  legs : List TokenTransferLeg
deriving Repr, DecidableEq

/-- POST api token transfer (server.js lines 367-394). hederaEnabled models
whether the hederaClient was initialized. The handler rejects when the client
is missing, then when tokenId, fromAccountId, toAccountId or amount is
missing; it then builds the two-leg TransferTransaction; with a sender key it
signs, executes and waits for the receipt, persisting a TRANSFER document
only after a receipt is obtained; without a sender key it rejects with 400.
Any throw from the ledger interaction lands in the catch block, which replies
500 Transfer failed with err.message as details and persists nothing. -/
def tokenTransfer (hederaEnabled : Bool) (req : TransferRequest)
    (outcome : LedgerOutcome) : TransferRunResult :=
  if !hederaEnabled then
    ⟨.err 500 "Hedera client not configured" none, [], false, []⟩
  else if !(strPresent req.tokenId && strPresent req.fromAccountId &&
      strPresent req.toAccountId && req.amount.isSome) then
    ⟨.err 400 "Missing fields" none, [], false, []⟩
  else
    let legs := transferLegs (req.tokenId.getD "") (req.fromAccountId.getD "")
      (req.toAccountId.getD "") (req.amount.getD 0)
    if strPresent req.fromPrivateKey then
      match outcome with
      | .ok st txId =>
          let txDoc : TxDoc :=
            ⟨req.fromAccountId.getD "", "TRANSFER", req.tokenId, req.amount,
              st, some txId, none⟩
          ⟨.ok ⟨txId, st⟩, [txDoc], true, legs⟩
      | .executeThrew m =>
          ⟨.err 500 "Transfer failed" (some m), [], true, legs⟩
      | .receiptThrew _ m =>
          ⟨.err 500 "Transfer failed" (some m), [], true, legs⟩
    else
      ⟨.err 400 "fromPrivateKey required for server-side transfer. Use client-side signing for non-custodial flows." none,
        [], false, legs⟩

/-- A transfer request with every field present, used as the concrete input
of the transfer counterexamples and witnesses. -/
def transferReqFull : TransferRequest :=
  ⟨some "0.0.100", some "0.0.1", some "302e0201keymaterial", some "0.0.2", some 10⟩

/-- A transfer request identical to transferReqFull except that the sender
signing key is absent. -/
def transferReqNoKey : TransferRequest :=
  ⟨some "0.0.100", some "0.0.1", none, some "0.0.2", some 10⟩

/-- C1 counterexample: a transfer whose submission reached the ledger (a
ledger call was issued and the transaction was submitted, but the receipt
wait failed) persists no Transaction document at all — the handler falls into
the catch block and returns without writing, so the claimed invariant fails
on the ambiguous outcome. -/
theorem transfer_ambiguous_not_persisted :
    (tokenTransfer true transferReqFull
      (.receiptThrew "0.0.1@123" "timeout waiting for receipt")).ledgerCalled = true
    ∧ (tokenTransfer true transferReqFull
      (.receiptThrew "0.0.1@123" "timeout waiting for receipt")).persisted = [] := by
  decide

/-- C1 amended: a Transaction document is persisted before replying exactly
when the ledger interaction fully succeeds (receipt obtained); on a throw
during execute or during the receipt wait the handler persists nothing. -/
theorem transfer_persists_only_on_success (req : TransferRequest)
    (outcome : LedgerOutcome)
    (hfields : (strPresent req.tokenId && strPresent req.fromAccountId &&
      strPresent req.toAccountId && req.amount.isSome) = true)
    (hkey : strPresent req.fromPrivateKey = true) :
    (tokenTransfer true req outcome).persisted =
      match outcome with
      | .ok st txId =>
          [⟨req.fromAccountId.getD "", "TRANSFER", req.tokenId, req.amount,
            st, some txId, none⟩]
      | .executeThrew _ => []
      | .receiptThrew _ _ => [] := by
  cases outcome <;> simp [tokenTransfer, hfields, hkey]

/-- C1 amended witness: on a fully successful transfer the persisted record
is the TRANSFER document carrying the receipt status and transaction id. -/
theorem transfer_persists_only_on_success_witness :
    (tokenTransfer true transferReqFull (.ok "SUCCESS" "0.0.1@123")).persisted =
      [⟨"0.0.1", "TRANSFER", some "0.0.100", some 10, "SUCCESS",
        some "0.0.1@123", none⟩] :=
  transfer_persists_only_on_success transferReqFull (.ok "SUCCESS" "0.0.1@123")
    (by decide) (by decide)

/-- C2 counterexample: when the receipt wait fails after a successful
submission, the reply is byte-for-byte the same 500 Transfer failed error the
handler produces when the submission itself throws — the ambiguous outcome is
not surfaced distinctly from failure. -/
theorem transfer_ambiguous_same_as_failure :
    (tokenTransfer true transferReqFull
        (.receiptThrew "0.0.1@123" "receipt wait timed out")).reply
      = (tokenTransfer true transferReqFull
        (.executeThrew "receipt wait timed out")).reply
    ∧ (tokenTransfer true transferReqFull
        (.receiptThrew "0.0.1@123" "receipt wait timed out")).reply
      = .err 500 "Transfer failed" (some "receipt wait timed out") := by
  decide

/-- C2 amended: a failed receipt wait is reported through the generic catch
block as HTTP 500 with error Transfer failed and err.message as details —
distinct from a success reply but identical in kind to a submission failure;
no separate AmbiguousOutcome kind exists. -/
theorem transfer_receipt_failure_generic_error (req : TransferRequest)
    (txId m : String)
    (hfields : (strPresent req.tokenId && strPresent req.fromAccountId &&
      strPresent req.toAccountId && req.amount.isSome) = true)
    (hkey : strPresent req.fromPrivateKey = true) :
    (tokenTransfer true req (.receiptThrew txId m)).reply
      = .err 500 "Transfer failed" (some m)
    ∧ (tokenTransfer true req (.receiptThrew txId m)).reply
      = (tokenTransfer true req (.executeThrew m)).reply := by
  simp [tokenTransfer, hfields, hkey]

/-- C2 amended witness at the concrete full request and a timeout message. -/
theorem transfer_receipt_failure_generic_error_witness :
    (tokenTransfer true transferReqFull
        (.receiptThrew "0.0.1@123" "timeout")).reply
      = .err 500 "Transfer failed" (some "timeout")
    ∧ (tokenTransfer true transferReqFull
        (.receiptThrew "0.0.1@123" "timeout")).reply
      = (tokenTransfer true transferReqFull (.executeThrew "timeout")).reply :=
  transfer_receipt_failure_generic_error transferReqFull "0.0.1@123" "timeout"
    (by decide) (by decide)

/-- C3: a transfer request without the sender signing key is answered with an
HTTP 400 error (either Missing fields or the fromPrivateKey-required
message), no ledger network call is issued, and no Transaction document is
persisted. -/
theorem transfer_missing_key_rejected (req : TransferRequest)
    (outcome : LedgerOutcome)
    (hkey : strPresent req.fromPrivateKey = false) :
    httpStatus (tokenTransfer true req outcome).reply = 400
    ∧ (tokenTransfer true req outcome).persisted = []
    ∧ (tokenTransfer true req outcome).ledgerCalled = false := by
  cases hC : (strPresent req.tokenId && strPresent req.fromAccountId &&
      strPresent req.toAccountId && req.amount.isSome) <;>
    simp [tokenTransfer, hC, hkey, httpStatus]

/-- C3 witness: the concrete keyless request is rejected with 400, with no
ledger call and no persisted record, whatever the ledger would have done. -/
theorem transfer_missing_key_rejected_witness :
    httpStatus (tokenTransfer true transferReqNoKey
        (.ok "SUCCESS" "0.0.1@123")).reply = 400
    ∧ (tokenTransfer true transferReqNoKey (.ok "SUCCESS" "0.0.1@123")).persisted = []
    ∧ (tokenTransfer true transferReqNoKey (.ok "SUCCESS" "0.0.1@123")).ledgerCalled = false :=
  transfer_missing_key_rejected transferReqNoKey (.ok "SUCCESS" "0.0.1@123")
    (by decide)

/-- C4: whenever the handler constructs a transfer, it has exactly the two
legs debit-from-by-amount and credit-to-by-amount, and the signed leg amounts
sum to zero. -/
theorem transfer_legs_balanced (req : TransferRequest) (outcome : LedgerOutcome)
    (hfields : (strPresent req.tokenId && strPresent req.fromAccountId &&
      strPresent req.toAccountId && req.amount.isSome) = true) :
    (tokenTransfer true req outcome).legs =
      [⟨req.tokenId.getD "", req.fromAccountId.getD "", -(req.amount.getD 0)⟩,
       ⟨req.tokenId.getD "", req.toAccountId.getD "", req.amount.getD 0⟩]
    ∧ (((tokenTransfer true req outcome).legs.map (fun l => l.amount)).sum = 0)
    ∧ (tokenTransfer true req outcome).legs.length = 2 := by
  have hlegs : (tokenTransfer true req outcome).legs =
      transferLegs (req.tokenId.getD "") (req.fromAccountId.getD "")
        (req.toAccountId.getD "") (req.amount.getD 0) := by
    cases hK : strPresent req.fromPrivateKey <;> cases outcome <;>
      simp [tokenTransfer, hfields, hK]
  refine ⟨by rw [hlegs]; rfl, ?_, by rw [hlegs]; rfl⟩
  rw [hlegs]
  simp [transferLegs]

/-- C4 witness: the concrete transfer of 10 units from 0.0.1 to 0.0.2 has the
two expected legs and they sum to zero. -/
theorem transfer_legs_balanced_witness :
    (tokenTransfer true transferReqFull (.ok "SUCCESS" "0.0.1@123")).legs =
      [⟨"0.0.100", "0.0.1", -10⟩, ⟨"0.0.100", "0.0.2", 10⟩]
    ∧ (((tokenTransfer true transferReqFull
        (.ok "SUCCESS" "0.0.1@123")).legs.map (fun l => l.amount)).sum = 0)
    ∧ (tokenTransfer true transferReqFull (.ok "SUCCESS" "0.0.1@123")).legs.length = 2 :=
  transfer_legs_balanced transferReqFull (.ok "SUCCESS" "0.0.1@123") (by decide)

/-- One price snapshot row, mirroring the Mongoose price schema and the
objects built by fetchCoinGecko. -/
structure PriceSnap where
  coinId : String
  usd : ℚ
  change_24h : ℚ
  updatedAt : Nat
deriving Repr, DecidableEq

/-- One entry of the oracle JSON body: asset id mapped to its usd price and
an optional 24h change (absent when the oracle omits it). -/
structure OracleEntry where
  coinId : String
  usd : ℚ
  usd_24h_change : Option ℚ
deriving Repr, DecidableEq

/-- The oracle HTTP interaction: a success body, a non-success HTTP status,
or a thrown transport error. -/
inductive OracleReply where
  | ok (entries : List OracleEntry)
  | httpErr (status : Nat) (message : String)
  | transportErr (msg : String)
deriving Repr, DecidableEq

/-- Value returned by fetchCoinGecko (server.js lines 465-480): on success
the transformed snapshot list, otherwise the non-success status or the
caught error. -/
inductive FetchResult where
  | ok (data : List PriceSnap)
  | httpErr (status : Nat) (message : String)
  | transportErr (msg : String)
deriving Repr, DecidableEq

/-- The snapshot built from one oracle entry: usd taken as is, a missing 24h
change defaulted to 0, updatedAt stamped with the current clock. -/
def oracleSnap (now : Nat) (e : OracleEntry) : PriceSnap :=
  ⟨e.coinId, e.usd, e.usd_24h_change.getD 0, now⟩

/-- fetchCoinGecko: maps the oracle reply into the handler-facing result,
transforming each entry on success and never throwing (it catches transport
errors itself). -/
def fetchCoinGecko (now : Nat) (oracle : OracleReply) : FetchResult :=
  match oracle with
  | .ok entries => .ok (entries.map (oracleSnap now))
  | .httpErr s m => .httpErr s m
  | .transportErr m => .transportErr m

/-- The storage backend selected at startup: MongoDB when MONGO_URI is set,
otherwise the in-process memory store. -/
inductive StorageMode where
  | durable
  | memory
deriving Repr, DecidableEq

/-- Result of one run of GET api prices: the reply and whether the handler
performed a live oracle fetch during the request. -/
structure PricesRunResult where
  reply : HttpReply (List PriceSnap)
  fetched : Bool
deriving Repr, DecidableEq

/-- GET api prices (server.js lines 448-463): with Mongo configured it
returns the stored Price documents; otherwise it performs a live
fetchCoinGecko call, returning its data or a 502 when the fetch was not ok.
The in-memory snapshot set memPrices is taken as an argument to make
explicit that the handler never consults it. -/
def getPrices (mode : StorageMode) (stored memPrices : List PriceSnap)
    (now : Nat) (oracle : OracleReply) : PricesRunResult :=
  match mode with
  | .durable => ⟨.ok stored, false⟩
  | .memory =>
      match fetchCoinGecko now oracle with
      | .ok data => ⟨.ok data, true⟩
      | .httpErr _ _ => ⟨.err 502 "Coingecko fetch failed" none, true⟩
      | .transportErr _ => ⟨.err 502 "Coingecko fetch failed" none, true⟩

/-- Replace the first stored snapshot carrying the same coinId, or append
when none is present: models Price.findOneAndUpdate with upsert true (the
re-stamped updatedAt coincides with the clock value fetchCoinGecko already
wrote into the snapshot). -/
def upsertPrice : List PriceSnap → PriceSnap → List PriceSnap
  | [], p => [p]
  | q :: rest, p =>
      if q.coinId == p.coinId then p :: rest else q :: upsertPrice rest p

/-- The two price stores: the Mongo Price collection and the in-memory
snapshot set memoryStore.prices. -/
structure PriceState where
  stored : List PriceSnap
  memPrices : List PriceSnap
deriving Repr, DecidableEq

/-- priceUpdaterOnce (server.js lines 482-498): fetches once; on a
non-success or error result it returns without touching either store; on
success it upserts every snapshot into the Price collection in durable mode,
or replaces the whole in-memory snapshot set in one assignment in memory
mode. Thrown errors are caught, so the refresh is total. -/
def priceUpdaterOnce (mode : StorageMode) (now : Nat) (oracle : OracleReply)
    (st : PriceState) : PriceState :=
  match fetchCoinGecko now oracle with
  | .ok data =>
      match mode with
      | .durable => ⟨data.foldl upsertPrice st.stored, st.memPrices⟩
      | .memory => ⟨st.stored, data⟩
  | .httpErr _ _ => st
  | .transportErr _ => st

/-- True when the oracle interaction did not produce a success response
(non-success HTTP status or transport error). -/
def oracleFailed : OracleReply → Bool
  | .ok _ => false
  | .httpErr _ _ => true
  | .transportErr _ => true

/-- C5 counterexample: in memory mode, even though a refresh has already
succeeded (the in-memory snapshot set holds a snapshot for asset x), a price
read still performs a live fetch and returns the freshly fetched data rather
than the cached set. -/
theorem prices_memory_read_ignores_cache :
    (getPrices .memory [] [⟨"x", 1, 0, 1⟩] 7 (.ok [⟨"x", 2, none⟩])).fetched = true
    ∧ (getPrices .memory [] [⟨"x", 1, 0, 1⟩] 7 (.ok [⟨"x", 2, none⟩])).reply
        = .ok [⟨"x", 2, 0, 7⟩]
    ∧ (getPrices .memory [] [⟨"x", 1, 0, 1⟩] 7 (.ok [⟨"x", 2, none⟩])).reply
        ≠ .ok [⟨"x", 1, 0, 1⟩] := by
  decide

/-- C5 amended: durable mode reads the stored Price documents directly with
no fetch; memory mode always performs a live on-demand fetch — returning its
data or a 502 — and its result is independent of both the stored collection
and the in-memory snapshot set. -/
theorem prices_read_modes (stored memPrices : List PriceSnap) (now : Nat)
    (oracle : OracleReply) :
    getPrices .durable stored memPrices now oracle = ⟨.ok stored, false⟩
    ∧ (getPrices .memory stored memPrices now oracle).fetched = true
    ∧ getPrices .memory stored memPrices now oracle
        = getPrices .memory [] [] now oracle := by
  cases oracle <;> simp [getPrices, fetchCoinGecko]

/-- C6 counterexample: an oracle failure during refresh leaves the in-memory
cache holding asset x unchanged, yet a subsequent price read in memory mode
does not return that cached set — it re-fetches and surfaces a 502. -/
theorem price_refresh_failure_memory_read_cex :
    priceUpdaterOnce .memory 8 (.transportErr "connection reset")
        ⟨[], [⟨"x", 1, 0, 1⟩]⟩ = ⟨[], [⟨"x", 1, 0, 1⟩]⟩
    ∧ (getPrices .memory [] [⟨"x", 1, 0, 1⟩] 9 (.transportErr "connection reset")).reply
        ≠ .ok [⟨"x", 1, 0, 1⟩] := by
  decide

/-- C6 amended: a failed refresh (non-success oracle response or transport
error) leaves both price stores exactly as they were and completes without
raising; a subsequent durable-mode read returns exactly the pre-failure
stored set, while memory-mode reads bypass the cache entirely. -/
theorem price_refresh_failure_cache_unchanged (mode : StorageMode)
    (now nowR : Nat) (oracle oracleR : OracleReply) (st : PriceState)
    (hfail : oracleFailed oracle = true) :
    priceUpdaterOnce mode now oracle st = st
    ∧ (getPrices .durable (priceUpdaterOnce mode now oracle st).stored
        (priceUpdaterOnce mode now oracle st).memPrices nowR oracleR).reply
      = .ok st.stored := by
  have h1 : priceUpdaterOnce mode now oracle st = st := by
    cases oracle <;> simp_all [priceUpdaterOnce, fetchCoinGecko, oracleFailed]
  exact ⟨h1, by rw [h1]; rfl⟩

/-- C6 amended witness: seeding the stored set with asset x at price 1,
a failed refresh leaves the state unchanged and a durable read still
returns the seeded snapshot. -/
theorem price_refresh_failure_cache_unchanged_witness :
    priceUpdaterOnce .durable 8 (.httpErr 429 "rate limited")
        ⟨[⟨"x", 1, 0, 1⟩], []⟩ = ⟨[⟨"x", 1, 0, 1⟩], []⟩
    ∧ (getPrices .durable
        (priceUpdaterOnce .durable 8 (.httpErr 429 "rate limited")
          ⟨[⟨"x", 1, 0, 1⟩], []⟩).stored
        (priceUpdaterOnce .durable 8 (.httpErr 429 "rate limited")
          ⟨[⟨"x", 1, 0, 1⟩], []⟩).memPrices 9 (.httpErr 429 "rate limited")).reply
      = .ok [⟨"x", 1, 0, 1⟩] :=
  price_refresh_failure_cache_unchanged .durable 8 9 (.httpErr 429 "rate limited")
    (.httpErr 429 "rate limited") ⟨[⟨"x", 1, 0, 1⟩], []⟩ (by decide)

/-- Number of stored snapshots carrying the given asset id. -/
def countId (l : List PriceSnap) (id : String) : Nat :=
  l.countP (fun p => p.coinId == id)

/-- countId agrees with counting the id among the projected coin ids. -/
theorem countId_eq_count (l : List PriceSnap) (id : String) :
    countId l id = (l.map (fun p => p.coinId)).count id := by
  unfold countId
  rw [List.count_eq_countP, List.countP_map]
  rfl

/-- Upserting a snapshot leaves the count of every other asset id unchanged. -/
theorem countId_upsertPrice_ne (l : List PriceSnap) (p : PriceSnap)
    (id : String) (hne : p.coinId ≠ id) :
    countId (upsertPrice l p) id = countId l id := by
  induction l with
  | nil => simp [upsertPrice, countId, hne]
  | cons q rest ih =>
      simp only [countId] at ih ⊢
      by_cases hq : q.coinId = p.coinId
      · have hqid : q.coinId ≠ id := by rw [hq]; exact hne
        simp [upsertPrice, List.countP_cons, hq, hne, hqid]
      · simp [upsertPrice, List.countP_cons, hq, ih]

/-- After upserting a snapshot into a store holding its asset id at most
once, the store holds that id exactly once. -/
theorem countId_upsertPrice_eq (l : List PriceSnap) (p : PriceSnap) :
    countId l p.coinId ≤ 1 → countId (upsertPrice l p) p.coinId = 1 := by
  induction l with
  | nil => intro _; simp [upsertPrice, countId]
  | cons q rest ih =>
      intro hle
      simp only [countId] at hle ih ⊢
      by_cases hq : q.coinId = p.coinId
      · simp [List.countP_cons, hq] at hle
        simp [upsertPrice, List.countP_cons, hq]
        exact hle
      · simp [List.countP_cons, hq] at hle
        simp [upsertPrice, List.countP_cons, hq, ih hle]

/-- Upserting preserves the at-most-one-snapshot-per-id invariant. -/
theorem countId_upsertPrice_le (l : List PriceSnap) (p : PriceSnap)
    (hinv : ∀ id, countId l id ≤ 1) (id : String) :
    countId (upsertPrice l p) id ≤ 1 := by
  by_cases hid : p.coinId = id
  · subst hid
    exact le_of_eq (countId_upsertPrice_eq l p (hinv p.coinId))
  · rw [countId_upsertPrice_ne l p id hid]
    exact hinv id

/-- Folding a batch of upserts over a store satisfying the invariant keeps
the invariant. -/
theorem countId_foldl_upsert (data : List PriceSnap) (l : List PriceSnap)
    (hinv : ∀ id, countId l id ≤ 1) :
    ∀ id, countId (data.foldl upsertPrice l) id ≤ 1 := by
  induction data generalizing l with
  | nil => exact hinv
  | cons p rest ih =>
      exact ih (upsertPrice l p) (countId_upsertPrice_le l p hinv)

/-- A successful oracle reply with pairwise distinct asset ids yields a
snapshot list holding every id at most once. -/
theorem countId_map_oracleSnap (now : Nat) (entries : List OracleEntry)
    (hnodup : (entries.map (fun e => e.coinId)).Nodup) (id : String) :
    countId (entries.map (oracleSnap now)) id ≤ 1 := by
  rw [countId_eq_count, List.map_map]
  have hcomp : ((fun p => PriceSnap.coinId p) ∘ oracleSnap now)
      = fun e => OracleEntry.coinId e := rfl
  rw [hcomp]
  exact List.nodup_iff_count_le_one.mp hnodup id

/-- True when the oracle reply, if successful, lists each asset id at most
once; a JS object cannot repeat a key, so Object.entries always satisfies
this. -/
def oracleIdsNodup : OracleReply → Bool
  | .ok entries => decide ((entries.map (fun e => e.coinId)).Nodup)
  | .httpErr _ _ => true
  | .transportErr _ => true

/-- C9: after a price refresh in either mode, every asset id still has at
most one live snapshot in both price stores — the refresh upserts per id into
the Mongo collection in durable mode and never appends a duplicate — given
that both stores satisfied the invariant beforehand and that a successful
oracle reply lists each asset id once (JS object keys are unique); moreover
in memory mode a successful refresh replaces the whole in-memory set in a
single assignment with exactly the fetched snapshot list. -/
theorem price_refresh_upsert_unique (now : Nat) (oracle : OracleReply)
    (st : PriceState) (entries : List OracleEntry)
    (h1 : (st.stored.map (fun p => p.coinId)).Nodup)
    (h2 : (st.memPrices.map (fun p => p.coinId)).Nodup)
    (h3 : oracleIdsNodup oracle = true) :
    (∀ id, countId (priceUpdaterOnce .durable now oracle st).stored id ≤ 1)
    ∧ (∀ id, countId (priceUpdaterOnce .durable now oracle st).memPrices id ≤ 1)
    ∧ (∀ id, countId (priceUpdaterOnce .memory now oracle st).stored id ≤ 1)
    ∧ (∀ id, countId (priceUpdaterOnce .memory now oracle st).memPrices id ≤ 1)
    ∧ (oracle = .ok entries →
        (priceUpdaterOnce .memory now oracle st).memPrices
          = entries.map (oracleSnap now)) := by
  have h1c : ∀ id, countId st.stored id ≤ 1 := fun id => by
    rw [countId_eq_count]
    exact List.nodup_iff_count_le_one.mp h1 id
  have h2c : ∀ id, countId st.memPrices id ≤ 1 := fun id => by
    rw [countId_eq_count]
    exact List.nodup_iff_count_le_one.mp h2 id
  cases oracle with
  | ok es =>
      have hnodup : (es.map (fun e => e.coinId)).Nodup := by
        simpa [oracleIdsNodup] using h3
      refine ⟨?_, h2c, h1c, ?_, ?_⟩
      · intro id
        exact countId_foldl_upsert (es.map (oracleSnap now)) st.stored h1c id
      · intro id
        exact countId_map_oracleSnap now es hnodup id
      · intro h
        injection h with h'
        subst h'
        rfl
  | httpErr s m =>
      refine ⟨h1c, h2c, h1c, h2c, ?_⟩
      intro h
      simp at h
  | transportErr m =>
      refine ⟨h1c, h2c, h1c, h2c, ?_⟩
      intro h
      simp at h

/-- Concrete oracle entries with distinct asset ids. -/
def oracleEntriesW : List OracleEntry :=
  [⟨"hedera-hashgraph", 1, some 2⟩, ⟨"bitcoin", 3, none⟩]

/-- A concrete pre-refresh price state: one stored snapshot, empty memory
set. -/
def priceStateW : PriceState := ⟨[⟨"hedera-hashgraph", 9, 0, 0⟩], []⟩

/-- C9 witness: refreshing the concrete state with the concrete oracle reply
keeps each asset id unique in both stores and replaces the memory set with
exactly the fetched snapshots. -/
theorem price_refresh_upsert_unique_witness :
    countId (priceUpdaterOnce .durable 5 (.ok oracleEntriesW) priceStateW).stored
      "hedera-hashgraph" ≤ 1
    ∧ countId (priceUpdaterOnce .memory 5 (.ok oracleEntriesW) priceStateW).memPrices
      "bitcoin" ≤ 1
    ∧ (priceUpdaterOnce .memory 5 (.ok oracleEntriesW) priceStateW).memPrices
        = oracleEntriesW.map (oracleSnap 5) := by
  have h := price_refresh_upsert_unique 5 (.ok oracleEntriesW) priceStateW
    oracleEntriesW (by decide) (by decide) (by decide)
  exact ⟨h.1 "hedera-hashgraph", h.2.2.2.1 "bitcoin", h.2.2.2.2 rfl⟩

/-- Newest-first ordering on transaction documents by their createdAt stamp
(an absent stamp reads as 0). -/
def newerFirst (a b : TxDoc) : Prop :=
  b.createdAt.getD 0 ≤ a.createdAt.getD 0

instance : DecidableRel newerFirst :=
  fun a b => inferInstanceAs (Decidable (b.createdAt.getD 0 ≤ a.createdAt.getD 0))

instance : IsTotal TxDoc newerFirst :=
  ⟨fun a b => le_total (b.createdAt.getD 0) (a.createdAt.getD 0)⟩

instance : IsTrans TxDoc newerFirst :=
  ⟨fun _ _ _ h1 h2 => le_trans h2 h1⟩

/-- GET api transactions (server.js lines 237-252), Mongo path:
Transaction.find on the account id, sorted by createdAt descending, then
limited; the Mongo sort is modelled by insertion sort under newerFirst. -/
def mongoListTransactions (accountId : String) (limit : Nat)
    (records : List TxDoc) : List TxDoc :=
  (List.insertionSort newerFirst
    (records.filter (fun t => t.accountId == accountId))).take limit

/-- GET api transactions, memory path: filter memoryStore.txs by account id
and slice the first limit entries; the store list itself stays newest-first
because every write path prepends (unshift). -/
def memListTransactions (accountId : String) (limit : Nat)
    (txs : List TxDoc) : List TxDoc :=
  (txs.filter (fun t => t.accountId == accountId)).take limit

/-- C7: both listing paths return at most limit records, every returned
record carries the requested account id, the memory path preserves any
newest-first ordering the store satisfies (writes prepend, so the store is
newest-first by construction), and the Mongo path returns records sorted
newest-first by createdAt. -/
theorem listTransactions_bounded_filtered_ordered (accountId : String)
    (limit : Nat) (txs records : List TxDoc) (r : TxDoc → TxDoc → Prop)
    (hsort : txs.Pairwise r) :
    (memListTransactions accountId limit txs).length ≤ limit
    ∧ (memListTransactions accountId limit txs).all
        (fun t => t.accountId == accountId) = true
    ∧ (memListTransactions accountId limit txs).Pairwise r
    ∧ (mongoListTransactions accountId limit records).length ≤ limit
    ∧ (mongoListTransactions accountId limit records).all
        (fun t => t.accountId == accountId) = true
    ∧ (mongoListTransactions accountId limit records).Pairwise newerFirst := by
  refine ⟨List.length_take_le _ _, ?_, ?_, List.length_take_le _ _, ?_, ?_⟩
  · apply List.all_eq_true.mpr
    intro t ht
    exact (List.mem_filter.mp ((List.take_sublist _ _).subset ht)).2
  · exact List.Pairwise.sublist (List.take_sublist _ _) (hsort.filter _)
  · apply List.all_eq_true.mpr
    intro t ht
    have hsorted : t ∈ List.insertionSort newerFirst
        (records.filter (fun t => t.accountId == accountId)) :=
      (List.take_sublist _ _).subset ht
    have hfil : t ∈ records.filter (fun t => t.accountId == accountId) :=
      (List.perm_insertionSort newerFirst _).mem_iff.mp hsorted
    exact (List.mem_filter.mp hfil).2
  · exact List.Pairwise.sublist (List.take_sublist _ _)
      (List.sorted_insertionSort newerFirst _)

/-- Three concrete transaction documents, newest first. -/
def txsW : List TxDoc :=
  [⟨"0.0.1", "TRANSFER", some "0.0.100", some 10, "SUCCESS", some "0.0.1@2", some 2⟩,
   ⟨"0.0.2", "MINT", some "0.0.100", some 5, "SUCCESS", none, some 1⟩,
   ⟨"0.0.1", "TRANSFER", some "0.0.100", some 3, "FAILED", none, some 0⟩]

/-- C7 witness: listing account 0.0.1 with limit 1 over the concrete store
is bounded, filtered and newest-first on both paths. -/
theorem listTransactions_bounded_filtered_ordered_witness :
    (memListTransactions "0.0.1" 1 txsW).length ≤ 1
    ∧ (memListTransactions "0.0.1" 1 txsW).all
        (fun t => t.accountId == "0.0.1") = true
    ∧ (memListTransactions "0.0.1" 1 txsW).Pairwise newerFirst
    ∧ (mongoListTransactions "0.0.1" 1 txsW).length ≤ 1
    ∧ (mongoListTransactions "0.0.1" 1 txsW).all
        (fun t => t.accountId == "0.0.1") = true
    ∧ (mongoListTransactions "0.0.1" 1 txsW).Pairwise newerFirst :=
  listTransactions_bounded_filtered_ordered "0.0.1" 1 txsW txsW newerFirst
    (by decide)

/-- Body of POST api auth register. -/
structure RegisterRequest where
  username : Option String
  password : Option String
  passphrase : Option String
deriving Repr, DecidableEq

/-- A stored user document (the password is kept as its bcrypt hash). -/
structure UserDoc where
  username : String
  passwordHash : String
  passphrase : String
deriving Repr, DecidableEq

/-- POST api auth register (server.js lines 146-168), Mongo path: reject on
missing fields, then on an existing user with the same username; otherwise
hash the password, save the new user and reply with a freshly minted token
(the reply body is modelled by the username the token is minted for). hashFn
stands for the bcrypt hash computation. -/
def mongoRegister (hashFn : String → String) (req : RegisterRequest)
    (users : List UserDoc) : HttpReply String × List UserDoc :=
  if !(strPresent req.username && strPresent req.password &&
      strPresent req.passphrase) then
    (.err 400 "Missing fields" none, users)
  else
    let username := req.username.getD ""
    if (users.find? (fun u => u.username == username)).isSome then
      (.err 400 "User exists" none, users)
    else
      (.ok username,
        users ++
          [⟨username, hashFn (req.password.getD ""), req.passphrase.getD ""⟩])

/-- POST api auth register, memory path: memoryStore.users is a Map keyed by
username — a has-check guards a set that appends the new binding. -/
def memRegister (hashFn : String → String) (req : RegisterRequest)
    (users : List (String × UserDoc)) :
    HttpReply String × List (String × UserDoc) :=
  if !(strPresent req.username && strPresent req.password &&
      strPresent req.passphrase) then
    (.err 400 "Missing fields" none, users)
  else
    let username := req.username.getD ""
    if (users.lookup username).isSome then
      (.err 400 "User exists" none, users)
    else
      (.ok username,
        users ++
          [(username,
            ⟨username, hashFn (req.password.getD ""), req.passphrase.getD ""⟩)])

/-- C8: when a user with the requested username is already present in the
backend, registration replies with the User exists conflict error and leaves
the user store untouched, on both the Mongo and the memory path. -/
theorem register_duplicate_conflict (hashFn : String → String)
    (req : RegisterRequest) (musers : List UserDoc)
    (memusers : List (String × UserDoc))
    (hfields : (strPresent req.username && strPresent req.password &&
      strPresent req.passphrase) = true)
    (hm : (musers.find? (fun u => u.username == req.username.getD "")).isSome
      = true)
    (hmem : (memusers.lookup (req.username.getD "")).isSome = true) :
    mongoRegister hashFn req musers = (.err 400 "User exists" none, musers)
    ∧ memRegister hashFn req memusers = (.err 400 "User exists" none, memusers) := by
  constructor
  · simp [mongoRegister, hfields, hm]
  · simp [memRegister, hfields, hmem]

/-- C8 witness: registering alice a second time over either backend already
holding alice yields the conflict reply and an unchanged store. -/
theorem register_duplicate_conflict_witness :
    mongoRegister id ⟨some "alice", some "pw123", some "passphraseA"⟩
        [⟨"alice", "hash1", "passphraseA"⟩]
      = (.err 400 "User exists" none, [⟨"alice", "hash1", "passphraseA"⟩])
    ∧ memRegister id ⟨some "alice", some "pw123", some "passphraseA"⟩
        [("alice", ⟨"alice", "hash1", "passphraseA"⟩)]
      = (.err 400 "User exists" none,
          [("alice", ⟨"alice", "hash1", "passphraseA"⟩)]) :=
  register_duplicate_conflict id ⟨some "alice", some "pw123", some "passphraseA"⟩
    [⟨"alice", "hash1", "passphraseA"⟩]
    [("alice", ⟨"alice", "hash1", "passphraseA"⟩)]
    (by decide) (by decide) (by decide)

/-- Body of POST api token create; decimals, initialSupply and
treasuryAccountId are optional. -/
structure TokenCreateRequest where
  name : Option String
  symbol : Option String
  decimals : Option Int
  initialSupply : Option Int
  treasuryAccountId : Option String
deriving Repr, DecidableEq

/-- HTS token type as set on the TokenCreateTransaction. -/
inductive HtsTokenType where
  | fungibleCommon
  | nonFungibleUnique
deriving Repr, DecidableEq

/-- HTS supply type as set on the TokenCreateTransaction. -/
inductive HtsSupplyType where
  | infinite
  | finite
deriving Repr, DecidableEq

/-- The server operator identity: the operator account id and the public key
derived from the operator private key. -/
structure OperatorConfig where
  operatorId : String
  operatorPublicKey : String
deriving Repr, DecidableEq

/-- The TokenCreateTransaction configuration assembled by the create
handler. -/
structure TokenCreateConfig where
  tokenName : String
  tokenSymbol : String
  decimals : Int
  initialSupply : Int
  treasuryAccountId : String
  tokenType : HtsTokenType
  supplyType : HtsSupplyType
  adminKey : String
  supplyKey : String
deriving Repr, DecidableEq

/-- How far the create handler gets before the ledger call: 500 without a
Hedera client, 400 without name or symbol, or submission of the assembled
configuration. -/
inductive TokenCreateStep where
  | notConfigured
  | missingFields
  | submit (cfg : TokenCreateConfig)
deriving Repr, DecidableEq

/-- POST api token create (server.js lines 278-308): destructuring defaults
decimals and initialSupply to 0 when absent; the treasury falls back to the
operator account when no treasuryAccountId is given (JS truthiness); the
token is always FungibleCommon with Infinite supply, and the operator public
key is set as both admin key and supply key. -/
def tokenCreate (hederaEnabled : Bool) (op : OperatorConfig)
    (req : TokenCreateRequest) : TokenCreateStep :=
  if !hederaEnabled then .notConfigured
  else if !(strPresent req.name && strPresent req.symbol) then .missingFields
  else .submit
    ⟨req.name.getD "", req.symbol.getD "", req.decimals.getD 0,
      req.initialSupply.getD 0,
      if strPresent req.treasuryAccountId then req.treasuryAccountId.getD ""
        else op.operatorId,
      .fungibleCommon, .infinite, op.operatorPublicKey, op.operatorPublicKey⟩

/-- C10: a create request with name and symbol but all optional fields
omitted is submitted with decimals 0, initialSupply 0 and the operator
account as treasury; and every submitted configuration — whatever the
request — is FungibleCommon with Infinite supply and carries the operator
public key as both admin and supply key. -/
theorem tokenCreate_defaults (op : OperatorConfig)
    (req req2 : TokenCreateRequest) (cfg : TokenCreateConfig)
    (hname : strPresent req.name = true) (hsym : strPresent req.symbol = true)
    (hdec : req.decimals = none) (hsup : req.initialSupply = none)
    (htr : req.treasuryAccountId = none)
    (hsubmit : tokenCreate true op req2 = .submit cfg) :
    tokenCreate true op req = .submit
      ⟨req.name.getD "", req.symbol.getD "", 0, 0, op.operatorId,
        .fungibleCommon, .infinite, op.operatorPublicKey, op.operatorPublicKey⟩
    ∧ cfg.tokenType = .fungibleCommon
    ∧ cfg.supplyType = .infinite
    ∧ cfg.adminKey = op.operatorPublicKey
    ∧ cfg.supplyKey = op.operatorPublicKey := by
  have hnone : strPresent (none : Option String) = false := rfl
  refine ⟨by simp [tokenCreate, hname, hsym, hdec, hsup, htr, hnone], ?_⟩
  cases h2 : (strPresent req2.name && strPresent req2.symbol) with
  | false =>
      simp [tokenCreate, h2] at hsubmit
  | true =>
      simp [tokenCreate, h2] at hsubmit
      subst hsubmit
      exact ⟨rfl, rfl, rfl, rfl⟩

/-- C10 witness: creating token Arthur with symbol ART and no optional
fields submits the defaulted configuration, which is FungibleCommon and
Infinite with the operator public key as both keys. -/
theorem tokenCreate_defaults_witness :
    tokenCreate true ⟨"0.0.9", "pubkey9"⟩ ⟨some "Arthur", some "ART", none, none, none⟩
      = .submit ⟨"Arthur", "ART", 0, 0, "0.0.9", .fungibleCommon, .infinite,
          "pubkey9", "pubkey9"⟩
    ∧ (⟨"Arthur", "ART", 0, 0, "0.0.9", .fungibleCommon, .infinite,
        "pubkey9", "pubkey9"⟩ : TokenCreateConfig).tokenType = .fungibleCommon
    ∧ (⟨"Arthur", "ART", 0, 0, "0.0.9", .fungibleCommon, .infinite,
        "pubkey9", "pubkey9"⟩ : TokenCreateConfig).supplyType = .infinite
    ∧ (⟨"Arthur", "ART", 0, 0, "0.0.9", .fungibleCommon, .infinite,
        "pubkey9", "pubkey9"⟩ : TokenCreateConfig).adminKey = "pubkey9"
    ∧ (⟨"Arthur", "ART", 0, 0, "0.0.9", .fungibleCommon, .infinite,
        "pubkey9", "pubkey9"⟩ : TokenCreateConfig).supplyKey = "pubkey9" :=
  tokenCreate_defaults ⟨"0.0.9", "pubkey9"⟩
    ⟨some "Arthur", some "ART", none, none, none⟩
    ⟨some "Arthur", some "ART", none, none, none⟩
    ⟨"Arthur", "ART", 0, 0, "0.0.9", .fungibleCommon, .infinite,
      "pubkey9", "pubkey9"⟩
    (by decide) (by decide) rfl rfl rfl (by decide)
